import Mathlib

namespace CIOGame

/-- Scope of a policy decision, as produced by the decision screen
(Turkish radio labels are mapped to targeted and general). -/
inductive Scope
| targeted
| general
deriving DecidableEq, Repr

/-- Duration of a policy decision (short, medium, long). -/
inductive Duration
| short
| medium
| long
deriving DecidableEq, Repr

/-- The ActionCard dataclass of app03.py. Numeric fields are modelled
as rationals, matching exact Python arithmetic on the JSON values. -/
structure ActionCard where
  id : String
  name : String
  cost : ℚ
  hr_cost : ℚ
  speed : String
  security_effect : ℚ
  freedom_cost : ℚ
  side_effect_risk : ℚ
  safeguard_reduction : ℚ
  tooltip : String
deriving DecidableEq, Repr

/-- The game_balance block of config.json, read in calculate_effects. -/
structure Balance where
  THREAT_SEVERITY : ℚ
  RANDOM_FACTOR_RANGE : ℚ × ℚ
  SCOPE_MULTIPLIERS : Scope → ℚ
  DURATION_MULTIPLIERS : Duration → ℚ
  SAFEGUARD_QUALITY_PER_ITEM : ℚ
  TRUST_BOOST_FOR_TRANSPARENCY : ℚ
  FATIGUE_PER_DURATION : Scope → ℚ

/-- The metrics/results dictionary shape. In app03.py the metrics dict
starts with the five gauges, and report_screen assigns
metrics := results.copy(), after which the dict also carries the
counter_factual, budget and human_resources keys of a results dict.
We model both dicts with one structure; the extra fields of the initial
metrics (never read by the program before they are overwritten) default
to empty/zero. -/
structure MDict where
  security : ℚ
  freedom : ℚ
  public_trust : ℚ
  resilience : ℚ
  fatigue : ℚ
  counter_factual : String := ""
  budget : ℚ := 0
  human_resources : ℚ := 0
deriving DecidableEq, Repr

/-- Python builtin min on two rationals (used as min(100, ...) in the
source); written with an explicit if so that it evaluates by kernel
reduction. Equal to Mathlib's min, see pymin_eq_min. -/
def pymin (a b : ℚ) : ℚ := if a ≤ b then a else b

/-- Python builtin max on two rationals (used as max(0, ...) in the
source). Equal to Mathlib's max, see pymax_eq_max. -/
def pymax (a b : ℚ) : ℚ := if a ≤ b then b else a

/-- add_news: insert the headline at the front; if the ticker then holds
more than 5 entries, pop the last one. -/
def add_news (headline : String) (ticker : List String) : List String :=
  let t := headline :: ticker
  if t.length > 5 then t.dropLast else t

/-- calculate_effects of app03.py. The single random draw
(random.uniform over RANDOM_FACTOR_RANGE) is passed in explicitly as
random_factor. Session state reads (metrics, budget, human_resources,
news_ticker, config) are passed as arguments; the function returns the
results dict together with the news ticker after the conditional
add_news side effects. The headline texts keep the source wording with
the quote characters around the interpolated action name elided. -/
def calculate_effects (cfg : Balance) (m : MDict) (budget human_resources : ℚ)
    (ticker : List String) (action : ActionCard) (scope : Scope)
    (duration : Duration) (safeguards : List String) (random_factor : ℚ) :
    MDict × List String :=
  let scope_multiplier := cfg.SCOPE_MULTIPLIERS scope
  let duration_multiplier := cfg.DURATION_MULTIPLIERS duration
  let safeguard_quality := (safeguards.length : ℚ) * cfg.SAFEGUARD_QUALITY_PER_ITEM
  let security_change := cfg.THREAT_SEVERITY * action.security_effect / 100 -
    action.side_effect_risk * random_factor * 20
  let freedom_cost := action.freedom_cost * scope_multiplier * duration_multiplier *
    (1 - safeguard_quality * action.safeguard_reduction)
  let public_trust_change :=
    (if "transparency" ∈ safeguards then cfg.TRUST_BOOST_FOR_TRANSPARENCY else 0) -
      freedom_cost * (1/2)
  let resilience_change :=
    if action.speed = "slow" then action.security_effect * safeguard_quality / 2 else 5
  let fatigue_change := duration_multiplier * cfg.FATIGUE_PER_DURATION scope
  let t1 := if security_change > 15 then
      add_news ("📈 GÜVENLİK ARTTI: " ++ action.name ++
        " politikası sonrası tehdit seviyesi düştü.") ticker
    else ticker
  let t2 := if freedom_cost > 15 then
      add_news "📉 ÖZGÜRLÜK TARTIŞMASI: Yeni kısıtlamalar sivil toplumdan tepki çekti." t1
    else t1
  let t3 := if "transparency" ∈ safeguards then
      add_news "📰 ŞEFFAFLIK ADIMI: Hükümet, atılan adımlarla ilgili detaylı rapor yayınladı." t2
    else t2
  let counter_factual :=
    if action.id = "A" then
      "B veya C ile aynı güvenliğe daha düşük özgürlük maliyetiyle ulaşabilirdiniz."
    else
      "Bu, orantılı bir seçimdi; güvenceler fark yarattı."
  ({ security := pymin 100 (pymax 0 (m.security + security_change)),
     freedom := pymin 100 (pymax 0 (m.freedom - freedom_cost)),
     public_trust := pymin 100 (pymax 0 (m.public_trust + public_trust_change)),
     resilience := pymin 100 (pymax 0 (m.resilience + resilience_change)),
     fatigue := pymin 100 (pymax 0 (m.fatigue + fatigue_change)),
     counter_factual := counter_factual,
     budget := budget - action.cost,
     human_resources := human_resources - action.hr_cost }, t3)

/-- The counter-factual text of calculate_skip_turn_effects. -/
def skip_counter_factual : String :=
  "Kaynaklarınızı daha verimli kullanmış olsaydınız, bu krize müdahale edebilir ve daha büyük zararları önleyebilirdiniz."

/-- The resource-shortfall headline emitted by calculate_skip_turn_effects. -/
def skip_headline : String :=
  "🚨 KAYNAK YETERSİZ: Hükümet, kaynak yetersizliği nedeniyle krize müdahale edemedi."

/-- calculate_skip_turn_effects of app03.py: the fixed penalty applied
when the turn is skipped for lack of resources. Emits exactly one
headline through add_news and leaves budget and human_resources as they
were. -/
def calculate_skip_turn_effects (m : MDict) (budget human_resources : ℚ)
    (ticker : List String) : MDict × List String :=
  let ticker2 := add_news skip_headline ticker
  let security_penalty : ℚ := -25
  let trust_penalty : ℚ := -20
  let resilience_penalty : ℚ := -10
  let fatigue_increase : ℚ := 15
  ({ security := pymin 100 (pymax 0 (m.security + security_penalty)),
     freedom := m.freedom,
     public_trust := pymin 100 (pymax 0 (m.public_trust + trust_penalty)),
     resilience := pymin 100 (pymax 0 (m.resilience + resilience_penalty)),
     fatigue := pymin 100 (pymax 0 (m.fatigue + fatigue_increase)),
     counter_factual := skip_counter_factual,
     budget := budget,
     human_resources := human_resources }, ticker2)

/-- The Advisor dataclass of app03.py (presentational content). -/
structure Advisor where
  name : String
  text : String
deriving DecidableEq, Repr

/-- The Scenario dataclass of app03.py. -/
structure Scenario where
  id : String
  title : String
  icon : String
  story : String
  advisors : List Advisor
  action_cards : List ActionCard
  immediate_text : String
  delayed_text : String
deriving DecidableEq, Repr

/-- The mapping returned by get_scenarios, modelled as an association
list from scenario key to Scenario. -/
def Scenarios : Type := List (String × Scenario)

/-- Key lookup in the scenario mapping,
get_scenarios()[st.session_state.selected_scenario_id]. -/
def lookup_scenario (scens : Scenarios) (oid : Option String) : Option Scenario :=
  oid.bind (fun i => ((scens : List (String × Scenario)).find? (fun p => p.1 == i)).map Prod.snd)

/-- The affordable_actions list comprehension of decision_screen:
the cards whose cost fits the budget and whose hr_cost fits the human
resources, in original order. -/
def affordable_actions : List ActionCard → ℚ → ℚ → List ActionCard
  | [], _, _ => []
  | c :: cs, budget, hr =>
    if c.cost ≤ budget ∧ c.hr_cost ≤ hr then c :: affordable_actions cs budget hr
    else affordable_actions cs budget hr

/-- The screen (phase) values stored in st.session_state.screen. -/
inductive Screen
| start_game
| story
| advisors
| decision
| immediate
| delayed
| report
| game_end
deriving DecidableEq, Repr

/-- The st.session_state.decision dict: only the action id and the
skipped flag are ever read back by the game logic (scope, duration and
safeguards are stored too but only echoed in presentational text). The
empty dict is modelled as ⟨none, false⟩, matching the falsy reads
decision.get('action') and decision.get('skipped'). -/
structure Decision where
  action : Option String
  skipped : Bool
deriving DecidableEq, Repr

/-- The initial_settings block of config.json. -/
structure InitSettings where
  metrics : MDict
  budget : ℚ
  hr : ℚ
  max_crises : Nat
deriving Repr

/-- The mutable session state of app03.py. -/
structure GameState where
  screen : Screen
  metrics : MDict
  budget : ℚ
  human_resources : ℚ
  max_crises : Nat
  crisis_history : List MDict
  news_ticker : List String
  current_crisis_index : Nat
  crisis_sequence : List String
  selected_scenario_id : Option String
  decision : Decision
  results : Option MDict
deriving Repr

/-- initialize_game_state of app03.py: the fresh session state built
from config.json's initial_settings. -/
def initialize_game_state (settings : InitSettings) : GameState :=
  { screen := .start_game,
    metrics := settings.metrics,
    budget := settings.budget,
    human_resources := settings.hr,
    max_crises := settings.max_crises,
    crisis_history := [],
    news_ticker := ["Oyun başladı. Ülke durumu stabil."],
    current_crisis_index := 0,
    crisis_sequence := [],
    selected_scenario_id := none,
    decision := { action := none, skipped := false },
    results := none }

/-- The delayed-effects computation at the top of delayed_screen: a
deterministic security/resilience bonus keyed on whether action C was
chosen (+10 for C, +5 otherwise, including skips), and a probabilistic
trust erosion of 3 points (the random.random() > 0.7 draw is the
erosion flag). Note the source applies no lower clamp to security and
resilience here. -/
def delayed_pass (action : Option String) (erosion : Bool) (r : MDict) : MDict :=
  { r with
    security := pymin 100 (r.security + (if action = some "C" then 10 else 5)),
    resilience := pymin 100 (r.resilience + (if action = some "C" then 10 else 5)),
    public_trust := pymin 100 (pymax 0 (r.public_trust - (if erosion then 3 else 0))) }

/-- The session-state mutations performed by rendering the current
screen. Streamlit reruns the whole script on every user interaction,
so these run on every rerun before any button handler fires:
delayed_screen overwrites st.session_state.results with the
delayed-effects pass, and report_screen commits
metrics := results.copy(). All other screen renderers only read state.
The erosion flag is the random draw consumed by a delayed render; it is
unused on the other screens. -/
def render (erosion : Bool) (s : GameState) : GameState :=
  match s.screen with
  | .delayed =>
    match s.results with
    | some r => { s with results := some (delayed_pass s.decision.action erosion r) }
    | none => s
  | .report =>
    match s.results with
    | some r => { s with metrics := r }
    | none => s
  | _ => s

/-- The crisis sequence built in start_game_screen:
crisis_keys[:max_crises] applied to the shuffled key list. -/
def sample_crisis_sequence (shuffled : List String) (max_crises : Nat) : List String :=
  shuffled.take max_crises

/-- The Oyunu Başlat button handler of start_game_screen. The shuffled
argument models the outcome of random.shuffle(list(scenarios.keys())),
so it is accepted only when it is a permutation of the loaded scenario
keys; any other list cannot arise from the source and is rejected as an
invalid event. When the truncated sequence is empty (no scenarios, or
max_crises = 0), the source raises IndexError at crisis_sequence[0]
after having already mutated crisis_sequence, current_crisis_index and
crisis_history, leaving the screen unchanged; the first branch models
that partially-mutated stuck state. -/
def start_game_handler (scens : Scenarios) (shuffled : List String) (s : GameState) :
    GameState :=
  if shuffled.Perm ((scens : List (String × Scenario)).map Prod.fst) then
    match sample_crisis_sequence shuffled s.max_crises with
    | [] =>
      { s with crisis_sequence := [],
               current_crisis_index := 0,
               crisis_history := s.crisis_history ++ [s.metrics] }
    | sid :: _ =>
      { s with crisis_sequence := sample_crisis_sequence shuffled s.max_crises,
               current_crisis_index := 0,
               crisis_history := s.crisis_history ++ [s.metrics],
               selected_scenario_id := some sid,
               screen := .story }
  else s

/-- The Bunu Seç button handler of decision_screen: the card buttons
are only rendered when some action is affordable, and a card's button
is disabled unless that card is affordable. -/
def select_action_handler (scens : Scenarios) (aid : String) (s : GameState) : GameState :=
  match lookup_scenario scens s.selected_scenario_id with
  | none => s
  | some scen =>
    if affordable_actions scen.action_cards s.budget s.human_resources = [] then s
    else
      match scen.action_cards.find? (fun c => c.id == aid) with
      | none => s
      | some card =>
        if card.cost ≤ s.budget ∧ card.hr_cost ≤ s.human_resources then
          { s with decision := { s.decision with action := some aid } }
        else s

/-- The Uygula button handler of decision_screen: requires a truthy
selected action id in the affordable branch, computes the effects,
persists the results and the ticker, and spends budget and human
resources. -/
def apply_decision_handler (cfg : Balance) (scens : Scenarios) (scope : Scope)
    (duration : Duration) (safeguards : List String) (random_factor : ℚ)
    (s : GameState) : GameState :=
  match lookup_scenario scens s.selected_scenario_id with
  | none => s
  | some scen =>
    if affordable_actions scen.action_cards s.budget s.human_resources = [] then s
    else
      match s.decision.action with
      | none => s
      | some aid =>
        if aid = "" then s
        else
          match scen.action_cards.find? (fun c => c.id == aid) with
          | none => s
          | some card =>
            let res := calculate_effects cfg s.metrics s.budget s.human_resources
              s.news_ticker card scope duration safeguards random_factor
            { s with decision := { action := some aid, skipped := false },
                     results := some res.1,
                     news_ticker := res.2,
                     budget := res.1.budget,
                     human_resources := res.1.human_resources,
                     screen := .immediate }

/-- The Turu Atla button handler of decision_screen, only rendered when
no action is affordable. -/
def skip_turn_handler (scens : Scenarios) (s : GameState) : GameState :=
  match lookup_scenario scens s.selected_scenario_id with
  | none => s
  | some scen =>
    if affordable_actions scen.action_cards s.budget s.human_resources = [] then
      let res := calculate_skip_turn_effects s.metrics s.budget s.human_resources
        s.news_ticker
      { s with results := some res.1,
               news_ticker := res.2,
               decision := { action := some "SKIP", skipped := true },
               screen := .immediate }
    else s

/-- The Sonraki Krize Geç button handler of report_screen (the caller
passes the already-rendered state, in which metrics = results). -/
def next_crisis_handler (s : GameState) : GameState :=
  let idx := s.current_crisis_index + 1
  let s1 := { s with current_crisis_index := idx,
                     crisis_history := s.crisis_history ++ [s.metrics] }
  if idx < s1.crisis_sequence.length then
    { s1 with selected_scenario_id := some (s1.crisis_sequence.getD idx ""),
              decision := { action := none, skipped := false },
              screen := .story }
  else
    { s1 with screen := .game_end }

/-- The sidebar Oyunu Bitir button handler of display_metrics_sidebar:
if st.session_state.results is falsy (None) it is replaced by the
current metrics dict, otherwise the already-computed results dict is
kept; then the screen becomes game_end. -/
def end_game_early_handler (s : GameState) : GameState :=
  { s with results := some (s.results.getD s.metrics), screen := .game_end }

/-- One player interaction, as seen by the Streamlit script. Events
carry the random draws their reruns consume: applyDecision carries the
random.uniform factor of calculate_effects, and the events whose reruns
execute the delayed_screen mutation carry the trust-erosion draw. -/
inductive Event
| startGame (shuffled : List String)
| listenAdvisors
| toDecision
| selectAction (aid : String)
| applyDecision (scope : Scope) (duration : Duration) (safeguards : List String)
    (random_factor : ℚ)
| skipTurn
| continueDelayed (erosion : Bool)
| seeReport (erosion : Bool)
| nextCrisis
| endEarly
| rerender (erosion : Bool)
| resetGame

/-- One quiescent-state-to-quiescent-state transition of the app.
A click on a button of the current screen triggers a script rerun that
first re-renders the current screen (mutating state on the delayed and
report screens), then runs the button handler, then (after st.rerun)
renders the new screen. The sidebar Oyunu Bitir button runs before the
screen renderer and st.rerun aborts the script, so no current-screen
render happens on that event. rerender models any interaction that
reruns the script without firing a game button (widget toggles, the
help expander). Events fired on screens that do not show the
corresponding button leave the state unchanged. The render calls whose
screen is deterministic receive a dummy false erosion flag that they
never read. -/
def stepQ (cfg : Balance) (scens : Scenarios) (settings : InitSettings)
    (s : GameState) : Event → GameState
  | .startGame shuffled =>
    if s.screen = .start_game then start_game_handler scens shuffled s else s
  | .listenAdvisors =>
    if s.screen = .story then { s with screen := .advisors } else s
  | .toDecision =>
    if s.screen = .advisors then { s with screen := .decision } else s
  | .selectAction aid =>
    if s.screen = .decision then select_action_handler scens aid s else s
  | .applyDecision scope duration safeguards random_factor =>
    if s.screen = .decision then
      apply_decision_handler cfg scens scope duration safeguards random_factor s
    else s
  | .skipTurn =>
    if s.screen = .decision then skip_turn_handler scens s else s
  | .continueDelayed erosion =>
    if s.screen = .immediate then render erosion { s with screen := .delayed } else s
  | .seeReport erosion =>
    if s.screen = .delayed then
      render false { (render erosion s) with screen := .report }
    else s
  | .nextCrisis =>
    if s.screen = .report then next_crisis_handler (render false s) else s
  | .endEarly =>
    if s.screen = .start_game ∨ s.screen = .game_end then s else end_game_early_handler s
  | .rerender erosion => render erosion s
  | .resetGame =>
    if s.screen = .game_end then initialize_game_state settings else s

/-- A full session: the initial state followed by a sequence of player
interactions. -/
def run (cfg : Balance) (scens : Scenarios) (settings : InitSettings)
    (events : List Event) : GameState :=
  events.foldl (fun s e => stepQ cfg scens settings s e) (initialize_game_state settings)

/-- The leadership score of game_end_screen, computed over
st.session_state.results. -/
def leadership_score (m : MDict) : ℚ :=
  (m.security + m.freedom + m.public_trust) / 3

/-- The narrative score tier of game_end_screen. -/
inductive ScoreTier
| excellent
| good
| poor
deriving DecidableEq, Repr

/-- The if/elif/else chain picking the score text in game_end_screen. -/
def score_tier (score : ℚ) : ScoreTier :=
  if score > 75 then .excellent
  else if score > 55 then .good
  else .poor

/-- The four leadership styles of game_end_screen. -/
inductive LeadershipStyle
| authoritarian
| freedomChampion
| communityBuilder
| balancedStrategist
deriving DecidableEq, Repr

/-- The leadership-style classification of game_end_screen: the default
is the balanced strategist, overridden by the if/elif/elif chain. -/
def leadership_style (m : MDict) : LeadershipStyle :=
  if m.security > 75 ∧ m.freedom < 50 then .authoritarian
  else if m.freedom > 75 ∧ m.security < 50 then .freedomChampion
  else if m.public_trust > 70 ∧ m.resilience > 60 then .communityBuilder
  else .balancedStrategist

/-- The demarcation token story_screen splits the scenario story on. -/
def gorev_token : List Char := "**Görev**:".data

/-- Leftmost non-overlapping splitting of a character list on a fixed
separator, the semantics of the Python str.split(sep) builtin used in
story_screen. The fuel argument (instantiated with the input length,
which bounds the number of scan steps) makes the recursion structural. -/
def split_on_aux (sep : List Char) : Nat → List Char → List Char → List (List Char)
  | _, [], acc => [acc.reverse]
  | 0, rest, acc => [acc.reverse ++ rest]
  | fuel + 1, c :: rest, acc =>
    if sep.isPrefixOf (c :: rest) then
      acc.reverse :: split_on_aux sep fuel ((c :: rest).drop sep.length) []
    else
      split_on_aux sep fuel rest (c :: acc)

/-- story.split("**Görev**:") of story_screen. -/
def story_split (story : String) : List String :=
  (split_on_aux gorev_token story.data.length story.data []).map String.mk

/-- The report/mission split of story_screen: the two-element unpacking
succeeds only when the split yields exactly two parts; the ValueError
handler otherwise treats the whole story as the report with an empty
mission. -/
def story_parts (story : String) : String × String :=
  match story_split story with
  | [report_part, mission_part] => (report_part, mission_part)
  | _ => (story, "")

/-- The five-gauge range invariant of the specification. -/
def metrics_in_range (m : MDict) : Prop :=
  (0 ≤ m.security ∧ m.security ≤ 100) ∧
  (0 ≤ m.freedom ∧ m.freedom ≤ 100) ∧
  (0 ≤ m.public_trust ∧ m.public_trust ≤ 100) ∧
  (0 ≤ m.resilience ∧ m.resilience ≤ 100) ∧
  (0 ≤ m.fatigue ∧ m.fatigue ≤ 100)

/-- Balance parameters used by the concrete test fixtures, matching the
§8 fixture of the specification. -/
def fix_cfg : Balance :=
  { THREAT_SEVERITY := 80,
    RANDOM_FACTOR_RANGE := (1/2, 3/2),
    SCOPE_MULTIPLIERS := fun sc => match sc with | .targeted => 7/10 | .general => 1,
    DURATION_MULTIPLIERS := fun d => match d with | .short => 1/2 | .medium => 1 | .long => 3/2,
    SAFEGUARD_QUALITY_PER_ITEM := 3/20,
    TRUST_BOOST_FOR_TRANSPARENCY := 10,
    FATIGUE_PER_DURATION := fun sc => match sc with | .targeted => 10 | .general => 20 }

/-- The §8 starting metrics fixture. -/
def fix_metrics : MDict :=
  { security := 50, freedom := 50, public_trust := 50, resilience := 50, fatigue := 0 }

/-- A concrete action card with the §8 fixture effect parameters
(security_effect 40, side_effect_risk 0.4); its id C exercises the
delayed-pass bonus branch. -/
def fix_card : ActionCard :=
  { id := "C", name := "Aksiyon C", cost := 10, hr_cost := 5, speed := "fast",
    security_effect := 40, freedom_cost := 20, side_effect_risk := 2/5,
    safeguard_reduction := 1/2, tooltip := "" }

/-- A concrete scenario holding fix_card. -/
def fix_scenario : Scenario :=
  { id := "s1", title := "Kriz", icon := "X",
    story := "Rapor. **Görev**: Dengeyi koru.",
    advisors := [{ name := "Güvenlik", text := "Görüş" }],
    action_cards := [fix_card],
    immediate_text := "Etki", delayed_text := "Gecikme" }

/-- A one-scenario content store. -/
def fix_scens : Scenarios := [("s1", fix_scenario)]

/-- Initial settings for the concrete traces. -/
def fix_settings : InitSettings :=
  { metrics := fix_metrics, budget := 100, hr := 50, max_crises := 1 }

/-- A two-scenario content store for the sampling counterexample. -/
def c5_scens : Scenarios := [("s1", fix_scenario), ("s2", fix_scenario)]

/-- Settings demanding three crises while only two scenarios exist. -/
def c5_settings : InitSettings :=
  { metrics := fix_metrics, budget := 100, hr := 50, max_crises := 3 }

/-- Interactions up to and including the first arrival on the delayed
screen (one delayed render). -/
def c8_events_once : List Event :=
  [.startGame ["s1"], .listenAdvisors, .toDecision, .selectAction "C",
   .applyDecision .targeted .short [] 1, .continueDelayed false]

/-- The same session continued by the single advancing click to the
report screen (whose rerun re-renders the delayed screen once more). -/
def c8_events_twice : List Event := c8_events_once ++ [.seeReport false]

/-- Interactions making a decision and then ending the game early from
the immediate screen, before the results are committed to metrics. -/
def c9_events : List Event :=
  [.startGame ["s1"], .listenAdvisors, .toDecision, .selectAction "C",
   .applyDecision .targeted .short [] 1, .endEarly]

/-- A concrete mid-game state on the story screen, for instantiating
the early-end transition. -/
def c9_wit_state : GameState :=
  { initialize_game_state fix_settings with screen := .story }

/-- A story text containing the demarcation token twice. -/
def c10_story : String := "a **Görev**: b **Görev**: c"

/-- The inductive invariant relating crisis_history to
current_crisis_index. On the start screen the history is empty (except
in the stuck IndexError situation, which requires no scenarios or
max_crises = 0); on every other screen but game_end the history is one
longer than the index. -/
def history_invariant (scens : Scenarios) (s : GameState) : Prop :=
  (s.screen = .start_game → s.current_crisis_index = 0 ∧
    (s.crisis_history = [] ∨ s.max_crises = 0 ∨ (scens : List (String × Scenario)) = [])) ∧
  (s.screen ≠ .start_game → s.screen ≠ .game_end →
    s.crisis_history.length = s.current_crisis_index + 1)

end CIOGame

namespace CIOGame

/-- The Python min used in the clamps agrees with Mathlib's min. -/
theorem pymin_eq_min (a b : ℚ) : pymin a b = min a b := by
  rw [pymin, min_def]

/-- The Python max used in the clamps agrees with Mathlib's max. -/
theorem pymax_eq_max (a b : ℚ) : pymax a b = max a b := by
  rw [pymax, max_def]

/-- The clamp pattern min(100, max(0, x)) always lands in [0, 100]. -/
theorem clamp_range (x : ℚ) : 0 ≤ pymin 100 (pymax 0 x) ∧ pymin 100 (pymax 0 x) ≤ 100 := by
  unfold pymin pymax
  split_ifs <;> constructor <;> linarith

/-- C1: on every input, calculate_effects computes exactly the
specified deltas — security from THREAT_SEVERITY, the card's
security_effect and the risk-weighted random factor; freedom cost from
the scope and duration multipliers and the safeguard mitigation; trust
from the transparency boost minus half the freedom cost; resilience
from the safeguard quality for slow actions and the flat 5 otherwise;
fatigue from the duration multiplier times the per-scope accrual — each
metric updated by its delta (freedom decreased by the freedom cost) and
clamped to [0, 100], while the result carries budget minus cost and
human resources minus hr_cost. -/
theorem calculate_effects_formula (cfg : Balance) (m : MDict) (budget hr : ℚ)
    (ticker : List String) (a : ActionCard) (scope : Scope) (duration : Duration)
    (safeguards : List String) (rf : ℚ)
    (hrf : cfg.RANDOM_FACTOR_RANGE.1 ≤ rf ∧ rf ≤ cfg.RANDOM_FACTOR_RANGE.2) :
    (calculate_effects cfg m budget hr ticker a scope duration safeguards rf).1.security =
      min 100 (max 0 (m.security +
        (cfg.THREAT_SEVERITY * a.security_effect / 100 - a.side_effect_risk * rf * 20))) ∧
    (calculate_effects cfg m budget hr ticker a scope duration safeguards rf).1.freedom =
      min 100 (max 0 (m.freedom -
        a.freedom_cost * cfg.SCOPE_MULTIPLIERS scope * cfg.DURATION_MULTIPLIERS duration *
          (1 - (safeguards.length : ℚ) * cfg.SAFEGUARD_QUALITY_PER_ITEM *
            a.safeguard_reduction))) ∧
    (calculate_effects cfg m budget hr ticker a scope duration safeguards rf).1.public_trust =
      min 100 (max 0 (m.public_trust +
        ((if "transparency" ∈ safeguards then cfg.TRUST_BOOST_FOR_TRANSPARENCY else 0) -
          a.freedom_cost * cfg.SCOPE_MULTIPLIERS scope * cfg.DURATION_MULTIPLIERS duration *
            (1 - (safeguards.length : ℚ) * cfg.SAFEGUARD_QUALITY_PER_ITEM *
              a.safeguard_reduction) * (1/2)))) ∧
    (calculate_effects cfg m budget hr ticker a scope duration safeguards rf).1.resilience =
      min 100 (max 0 (m.resilience +
        (if a.speed = "slow" then
          a.security_effect * (safeguards.length : ℚ) * cfg.SAFEGUARD_QUALITY_PER_ITEM / 2
        else 5))) ∧
    (calculate_effects cfg m budget hr ticker a scope duration safeguards rf).1.fatigue =
      min 100 (max 0 (m.fatigue +
        cfg.DURATION_MULTIPLIERS duration * cfg.FATIGUE_PER_DURATION scope)) ∧
    (calculate_effects cfg m budget hr ticker a scope duration safeguards rf).1.budget =
      budget - a.cost ∧
    (calculate_effects cfg m budget hr ticker a scope duration safeguards rf).1.human_resources =
      hr - a.hr_cost := by
  unfold calculate_effects
  simp only [pymin_eq_min, pymax_eq_max]
  refine ⟨?_, ?_, ?_, ?_, ?_, ?_, ?_⟩ <;> try trivial
  by_cases hs : a.speed = "slow"
  · simp only [hs, if_true]
    congr 2
    ring
  · simp only [hs, if_false]

/-- Witness for C1 at the §8 fixture: starting security 50, threat
severity 80, security effect 40, side-effect risk 0.4 and random factor
0.5 yield security 78. -/
theorem calculate_effects_formula_witness :
    fix_cfg.RANDOM_FACTOR_RANGE.1 ≤ (1/2 : ℚ) ∧ (1/2 : ℚ) ≤ fix_cfg.RANDOM_FACTOR_RANGE.2 ∧
    (calculate_effects fix_cfg fix_metrics 100 50 [] fix_card .targeted .short []
      (1/2)).1.security = 78 := by
  have h := calculate_effects_formula fix_cfg fix_metrics 100 50 [] fix_card .targeted .short
    [] (1/2) (by norm_num [fix_cfg])
  refine ⟨by norm_num [fix_cfg], by norm_num [fix_cfg], ?_⟩
  rw [h.1]
  norm_num [fix_cfg, fix_metrics, fix_card, min_def, max_def]

/-- C2: starting from metrics inside [0, 100], all five metrics of the
effect calculator result, of the skip-effects result, and of the
delayed-effects pass are again inside [0, 100]. -/
theorem metric_updates_stay_in_range (cfg : Balance) (m : MDict) (budget hr : ℚ)
    (ticker : List String) (a : ActionCard) (scope : Scope) (duration : Duration)
    (safeguards : List String) (rf : ℚ) (action : Option String) (erosion : Bool)
    (hm : metrics_in_range m) :
    metrics_in_range (calculate_effects cfg m budget hr ticker a scope duration safeguards rf).1 ∧
    metrics_in_range (calculate_skip_turn_effects m budget hr ticker).1 ∧
    metrics_in_range (delayed_pass action erosion m) := by
  obtain ⟨hsec, hfre, htru, hres, hfat⟩ := hm
  refine ⟨⟨clamp_range _, clamp_range _, clamp_range _, clamp_range _, clamp_range _⟩,
          ⟨clamp_range _, hfre, clamp_range _, clamp_range _, clamp_range _⟩,
          ?_, hfre, clamp_range _, ?_, hfat⟩
  · show 0 ≤ pymin 100 (m.security + _) ∧ pymin 100 (m.security + _) ≤ 100
    unfold pymin
    split_ifs <;> constructor <;> linarith [hsec.1]
  · show 0 ≤ pymin 100 (m.resilience + _) ∧ pymin 100 (m.resilience + _) ≤ 100
    unfold pymin
    split_ifs <;> constructor <;> linarith [hres.1]

/-- Witness for C2 at the fixture metrics and card. -/
theorem metric_updates_stay_in_range_witness :
    metrics_in_range fix_metrics ∧
    metrics_in_range (calculate_effects fix_cfg fix_metrics 100 50 [] fix_card .targeted
      .short [] 1).1 ∧
    metrics_in_range (calculate_skip_turn_effects fix_metrics 100 50 []).1 ∧
    metrics_in_range (delayed_pass (some "C") true fix_metrics) := by
  have hm : metrics_in_range fix_metrics := by norm_num [metrics_in_range, fix_metrics]
  exact ⟨hm, metric_updates_stay_in_range fix_cfg fix_metrics 100 50 [] fix_card .targeted
    .short [] 1 (some "C") true hm⟩

/-- C3: the leadership score is the mean of the final security, freedom
and public trust; the score tier is excellent exactly above 75, good
exactly on (55, 75], poor otherwise; the leadership style follows the
ordered rules authoritarian, freedom champion, community builder, with
the balanced strategist as the default, the characterizations being
mutually exclusive by construction; and rendering the game_end screen
leaves the game state untouched. -/
theorem scoring_engine_spec (m : MDict) :
    leadership_score m = (m.security + m.freedom + m.public_trust) / 3 ∧
    (score_tier (leadership_score m) = .excellent ↔ leadership_score m > 75) ∧
    (score_tier (leadership_score m) = .good ↔
      55 < leadership_score m ∧ leadership_score m ≤ 75) ∧
    (score_tier (leadership_score m) = .poor ↔ leadership_score m ≤ 55) ∧
    (leadership_style m = .authoritarian ↔ m.security > 75 ∧ m.freedom < 50) ∧
    (leadership_style m = .freedomChampion ↔
      ¬(m.security > 75 ∧ m.freedom < 50) ∧ m.freedom > 75 ∧ m.security < 50) ∧
    (leadership_style m = .communityBuilder ↔
      ¬(m.security > 75 ∧ m.freedom < 50) ∧ ¬(m.freedom > 75 ∧ m.security < 50) ∧
      m.public_trust > 70 ∧ m.resilience > 60) ∧
    (leadership_style m = .balancedStrategist ↔
      ¬(m.security > 75 ∧ m.freedom < 50) ∧ ¬(m.freedom > 75 ∧ m.security < 50) ∧
      ¬(m.public_trust > 70 ∧ m.resilience > 60)) ∧
    (∀ (erosion : Bool) (s : GameState),
      render erosion { s with screen := .game_end } = { s with screen := .game_end }) := by
  refine ⟨rfl, ?_, ?_, ?_, ?_, ?_, ?_, ?_, fun _ _ => rfl⟩ <;>
    (simp only [score_tier, leadership_style];
     split_ifs <;> simp_all <;>
       first | linarith | (constructor <;> linarith) | tauto)

/-- C4: skipping a turn decreases security by 25, trust by 20,
resilience by 10 and raises fatigue by 15, each clamped to [0, 100],
leaves freedom, budget and human resources exactly unchanged, returns
the fixed counter-factual text, emits exactly one resource-shortfall
headline; and with an empty budget, empty human resources and only
positively-priced actions, no action is affordable, so the decision
screen renders only the skip path. -/
theorem skip_turn_and_resource_gate (m : MDict) (budget hr : ℚ) (ticker : List String)
    (cards : List ActionCard) (hcost : ∀ c ∈ cards, 0 < c.cost) :
    (calculate_skip_turn_effects m budget hr ticker).1.security =
      min 100 (max 0 (m.security - 25)) ∧
    (calculate_skip_turn_effects m budget hr ticker).1.public_trust =
      min 100 (max 0 (m.public_trust - 20)) ∧
    (calculate_skip_turn_effects m budget hr ticker).1.resilience =
      min 100 (max 0 (m.resilience - 10)) ∧
    (calculate_skip_turn_effects m budget hr ticker).1.fatigue =
      min 100 (max 0 (m.fatigue + 15)) ∧
    (calculate_skip_turn_effects m budget hr ticker).1.freedom = m.freedom ∧
    (calculate_skip_turn_effects m budget hr ticker).1.budget = budget ∧
    (calculate_skip_turn_effects m budget hr ticker).1.human_resources = hr ∧
    (calculate_skip_turn_effects m budget hr ticker).1.counter_factual =
      skip_counter_factual ∧
    (calculate_skip_turn_effects m budget hr ticker).2 = add_news skip_headline ticker ∧
    affordable_actions cards 0 0 = [] := by
  unfold calculate_skip_turn_effects
  simp only [pymin_eq_min, pymax_eq_max]
  refine ⟨?_, ?_, ?_, ?_, ?_, ?_, ?_, ?_, ?_, ?_⟩ <;> try trivial
  · rw [sub_eq_add_neg]
  · rw [sub_eq_add_neg]
  · rw [sub_eq_add_neg]
  · induction cards with
    | nil => rfl
    | cons c cs ih =>
      rw [affordable_actions, if_neg]
      · exact ih (fun x hx => hcost x (List.mem_cons_of_mem c hx))
      · exact fun hcon => absurd hcon.1 (not_le.mpr (hcost c (List.mem_cons_self c cs)))

/-- C5 counterexample: with two loaded scenarios and max_crises = 3,
the start transition does not fail in any way — it reaches the story
screen with a crisis sequence of length 2, strictly shorter than
max_crises. -/
theorem crisis_sampling_counterexample :
    (run fix_cfg c5_scens c5_settings [.startGame ["s1", "s2"]]).screen = Screen.story ∧
    (run fix_cfg c5_scens c5_settings [.startGame ["s1", "s2"]]).crisis_sequence.length = 2 ∧
    c5_settings.max_crises = 3 := by
  refine ⟨?_, ?_, rfl⟩ <;>
    norm_num +decide [run, stepQ, initialize_game_state, start_game_handler,
      sample_crisis_sequence, c5_scens, c5_settings, fix_metrics, fix_scenario, fix_card]

/-- C5 amended: the sampled crisis sequence keeps the shuffled keys
distinct and has length min(max_crises, number of scenarios); when
fewer scenarios exist than max_crises the game simply starts with this
shorter sequence instead of failing. -/
theorem crisis_sampling_amended (shuffled : List String) (n : Nat)
    (h : shuffled.Nodup) :
    (sample_crisis_sequence shuffled n).Nodup ∧
    (sample_crisis_sequence shuffled n).length = min n shuffled.length := by
  constructor
  · exact (List.take_sublist n shuffled).nodup h
  · exact List.length_take n shuffled

/-- Witness for the amended C5 at two distinct keys and max_crises 3. -/
theorem crisis_sampling_amended_witness :
    (sample_crisis_sequence ["s1", "s2"] 3).Nodup ∧
    (sample_crisis_sequence ["s1", "s2"] 3).length = min 3 2 := by
  have h := crisis_sampling_amended ["s1", "s2"] 3 (by decide)
  exact ⟨h.1, h.2⟩

/-- Appending one headline to a ticker of at most five entries keeps it
at most five entries. -/
theorem add_news_length_le (hd : String) (t : List String) (h : t.length ≤ 5) :
    (add_news hd t).length ≤ 5 := by
  simp only [add_news]
  split_ifs with h5 <;>
    simp only [List.length_dropLast, List.length_cons] at * <;> omega

/-- C7: from any ticker of at most 5 entries (in particular the initial
single-entry ticker), any sequence of insertions leaves at most 5
entries; every insertion puts the new headline at index 0; and on a
full ticker exactly the last (oldest) entry is evicted. -/
theorem news_ticker_spec (headlines : List String) (t : List String) (h : t.length ≤ 5) :
    (headlines.foldl (fun acc hd => add_news hd acc) t).length ≤ 5 ∧
    (∀ (hd : String) (u : List String), (add_news hd u).head? = some hd) ∧
    (∀ (hd : String) (u : List String), u.length = 5 → add_news hd u = hd :: u.dropLast) := by
  refine ⟨?_, ?_, ?_⟩
  · induction headlines generalizing t with
    | nil => simpa using h
    | cons hd hs ih => exact ih (add_news hd t) (add_news_length_le hd t h)
  · intro hd u
    simp only [add_news]
    split_ifs with h5
    · rcases u with _ | ⟨a, u⟩
      · simp at h5
      · rfl
    · rfl
  · intro hd u hu
    rcases u with _ | ⟨a, u⟩
    · simp at hu
    · simp only [add_news]
      rw [if_pos]
      · rfl
      · simp only [List.length_cons] at hu ⊢
        omega

/-- Witness for C7: six insertions into a one-entry ticker stay at five
entries, and a concrete full-ticker insertion keeps the head new and
drops the oldest entry. -/
theorem news_ticker_spec_witness :
    (["h1", "h2", "h3", "h4", "h5", "h6"].foldl
      (fun acc hd => add_news hd acc) ["h0"]).length ≤ 5 ∧
    (add_news "h7" ["a", "b", "c", "d", "e"]).head? = some "h7" ∧
    add_news "h7" ["a", "b", "c", "d", "e"] = ["h7", "a", "b", "c", "d"] := by
  have h := news_ticker_spec ["h1", "h2", "h3", "h4", "h5", "h6"] ["h0"] (by decide)
  refine ⟨h.1, h.2.1 "h7" _, ?_⟩
  rw [h.2.2 "h7" ["a", "b", "c", "d", "e"] (by decide)]
  decide

/-- C10: when the story does not split into exactly two parts on the
demarcation token — in particular when the token occurs more than once
— story_screen falls through the ValueError handler and renders the
whole story as the report with an empty mission, exactly as in the
token-absent case. -/
theorem story_split_fallthrough (story : String)
    (h : (story_split story).length ≠ 2) :
    story_parts story = (story, "") := by
  unfold story_parts
  rcases hs : story_split story with _ | ⟨a, _ | ⟨b, _ | ⟨c, l⟩⟩⟩
  · rfl
  · rfl
  · exact absurd (by simp [hs]) h
  · rfl

/-- Witness for C10: a story holding the token twice splits into three
parts and is rendered as a report with an empty mission. -/
theorem story_split_fallthrough_witness :
    (story_split c10_story).length = 3 ∧ story_parts c10_story = (c10_story, "") := by
  refine ⟨by decide, story_split_fallthrough c10_story (by decide)⟩

/-- Rendering a screen never touches the screen tag, the crisis
history, the crisis index or the max_crises setting. -/
theorem render_fields (erosion : Bool) (s : GameState) :
    (render erosion s).screen = s.screen ∧
    (render erosion s).crisis_history = s.crisis_history ∧
    (render erosion s).current_crisis_index = s.current_crisis_index ∧
    (render erosion s).max_crises = s.max_crises := by
  obtain ⟨sc, m, b, hr, mx, ch, nt, ci, cs, sid, d, r⟩ := s
  cases sc <;> cases r <;> simp [render]

/-- The history invariant only reads the screen, history, index and
max_crises fields, so it transports along states agreeing there. -/
theorem history_invariant_same_fields (scens : Scenarios) (s s' : GameState)
    (hscreen : s'.screen = s.screen)
    (hhist : s'.crisis_history = s.crisis_history)
    (hidx : s'.current_crisis_index = s.current_crisis_index)
    (hmax : s'.max_crises = s.max_crises)
    (h : history_invariant scens s) : history_invariant scens s' := by
  obtain ⟨h0, hmid⟩ := h
  constructor
  · intro hs
    rw [hscreen] at hs
    rw [hidx, hhist, hmax]
    exact h0 hs
  · intro h1 h2
    rw [hscreen] at h1 h2
    rw [hhist, hidx]
    exact hmid h1 h2

/-- Moving between two non-start screens while leaving history and
index untouched preserves the history invariant. -/
theorem history_invariant_to_mid (scens : Scenarios) (s s' : GameState)
    (h1 : s.screen ≠ .start_game) (h2 : s.screen ≠ .game_end)
    (hsc1 : s'.screen ≠ .start_game)
    (hhist : s'.crisis_history = s.crisis_history)
    (hidx : s'.current_crisis_index = s.current_crisis_index)
    (h : history_invariant scens s) : history_invariant scens s' := by
  obtain ⟨h0, hmid⟩ := h
  refine ⟨fun hs => absurd hs hsc1, fun _ _ => ?_⟩
  rw [hhist, hidx]
  exact hmid h1 h2

/-- Any state sitting on the game_end screen satisfies the history
invariant vacuously. -/
theorem history_invariant_game_end (scens : Scenarios) (s' : GameState)
    (hsc : s'.screen = .game_end) : history_invariant scens s' := by
  refine ⟨fun hs => ?_, fun _ h2 => absurd hsc h2⟩
  rw [hsc] at hs
  cases hs

/-- Rendering preserves the history invariant. -/
theorem history_invariant_render (scens : Scenarios) (erosion : Bool) (s : GameState)
    (h : history_invariant scens s) : history_invariant scens (render erosion s) := by
  have hf := render_fields erosion s
  exact history_invariant_same_fields scens s (render erosion s) hf.1 hf.2.1 hf.2.2.1
    hf.2.2.2 h

/-- The freshly initialized session satisfies the history invariant. -/
theorem history_invariant_init (scens : Scenarios) (settings : InitSettings) :
    history_invariant scens (initialize_game_state settings) := by
  exact ⟨fun _ => ⟨rfl, Or.inl rfl⟩, fun h1 _ => absurd rfl h1⟩

/-- Every single interaction preserves the history invariant. -/
theorem history_invariant_step (cfg : Balance) (scens : Scenarios)
    (settings : InitSettings) (s : GameState) (e : Event)
    (hI : history_invariant scens s) :
    history_invariant scens (stepQ cfg scens settings s e) := by
  obtain ⟨h0, hmid⟩ := hI
  cases e with
  | startGame shuffled =>
    simp only [stepQ]
    split_ifs with hscr
    · unfold start_game_handler
      split_ifs with hperm
      · rcases hseq : sample_crisis_sequence shuffled s.max_crises with _ | ⟨sid, rest⟩
        · refine ⟨fun _ => ⟨rfl, ?_⟩, fun h1 _ => absurd hscr h1⟩
          rcases List.take_eq_nil_iff.mp hseq with hmax | hnil
          · exact Or.inr (Or.inl hmax)
          · refine Or.inr (Or.inr ?_)
            rw [hnil] at hperm
            exact List.map_eq_nil_iff.mp (List.Perm.eq_nil hperm.symm)
        · obtain ⟨hidx, hdisj⟩ := h0 hscr
          have hhist : s.crisis_history = [] := by
            rcases hdisj with h | h | h
            · exact h
            · rw [sample_crisis_sequence, h] at hseq
              simp at hseq
            · rw [h] at hperm
              simp only [List.map_nil] at hperm
              rw [List.Perm.eq_nil hperm, sample_crisis_sequence] at hseq
              simp at hseq
          refine ⟨fun hs => Screen.noConfusion hs, fun _ _ => ?_⟩
          rw [hhist]
          simp
      · exact ⟨h0, hmid⟩
    · exact ⟨h0, hmid⟩
  | listenAdvisors =>
    simp only [stepQ]
    split_ifs with hscr
    · exact history_invariant_to_mid scens s _ (by simp [hscr]) (by simp [hscr]) (by simp)
        rfl rfl ⟨h0, hmid⟩
    · exact ⟨h0, hmid⟩
  | toDecision =>
    simp only [stepQ]
    split_ifs with hscr
    · exact history_invariant_to_mid scens s _ (by simp [hscr]) (by simp [hscr]) (by simp)
        rfl rfl ⟨h0, hmid⟩
    · exact ⟨h0, hmid⟩
  | selectAction aid =>
    simp only [stepQ]
    split_ifs with hscr
    · unfold select_action_handler
      split
      · exact ⟨h0, hmid⟩
      · split_ifs with haff
        · exact ⟨h0, hmid⟩
        · split
          · exact ⟨h0, hmid⟩
          · split_ifs with hc
            · exact history_invariant_same_fields scens s _ rfl rfl rfl rfl ⟨h0, hmid⟩
            · exact ⟨h0, hmid⟩
    · exact ⟨h0, hmid⟩
  | applyDecision scope duration safeguards rf =>
    simp only [stepQ]
    split_ifs with hscr
    · unfold apply_decision_handler
      split
      · exact ⟨h0, hmid⟩
      · split_ifs with haff
        · exact ⟨h0, hmid⟩
        · split
          · exact ⟨h0, hmid⟩
          · split_ifs with hempty
            · exact ⟨h0, hmid⟩
            · split
              · exact ⟨h0, hmid⟩
              · exact history_invariant_to_mid scens s _ (by simp [hscr])
                  (by simp [hscr]) (by simp) rfl rfl ⟨h0, hmid⟩
    · exact ⟨h0, hmid⟩
  | skipTurn =>
    simp only [stepQ]
    split_ifs with hscr
    · unfold skip_turn_handler
      split
      · exact ⟨h0, hmid⟩
      · split_ifs with haff
        · exact history_invariant_to_mid scens s _ (by simp [hscr]) (by simp [hscr])
            (by simp) rfl rfl ⟨h0, hmid⟩
        · exact ⟨h0, hmid⟩
    · exact ⟨h0, hmid⟩
  | continueDelayed erosion =>
    simp only [stepQ]
    split_ifs with hscr
    · apply history_invariant_render
      exact history_invariant_to_mid scens s _ (by simp [hscr]) (by simp [hscr]) (by simp)
        rfl rfl ⟨h0, hmid⟩
    · exact ⟨h0, hmid⟩
  | seeReport erosion =>
    simp only [stepQ]
    split_ifs with hscr
    · apply history_invariant_render
      refine history_invariant_to_mid scens (render erosion s) _ ?_ ?_ (by simp) rfl rfl
        (history_invariant_render scens erosion s ⟨h0, hmid⟩)
      · rw [(render_fields erosion s).1, hscr]
        simp
      · rw [(render_fields erosion s).1, hscr]
        simp
    · exact ⟨h0, hmid⟩
  | nextCrisis =>
    simp only [stepQ]
    split_ifs with hscr
    · have hf := render_fields false s
      have hlen : (render false s).crisis_history.length =
          (render false s).current_crisis_index + 1 := by
        rw [hf.2.1, hf.2.2.1]
        exact hmid (by simp [hscr]) (by simp [hscr])
      simp only [next_crisis_handler]
      split_ifs with hlt
      · refine ⟨fun hs => Screen.noConfusion hs, fun _ _ => ?_⟩
        simp only [List.length_append, List.length_cons, List.length_nil, hlen]
      · apply history_invariant_game_end
        rfl
    · exact ⟨h0, hmid⟩
  | endEarly =>
    simp only [stepQ]
    split_ifs with hscr
    · exact ⟨h0, hmid⟩
    · apply history_invariant_game_end
      rfl
  | rerender erosion =>
    simp only [stepQ]
    exact history_invariant_render scens erosion s ⟨h0, hmid⟩
  | resetGame =>
    simp only [stepQ]
    split_ifs with hscr
    · exact history_invariant_init scens settings
    · exact ⟨h0, hmid⟩

/-- Every reachable session state satisfies the history invariant. -/
theorem history_invariant_run (cfg : Balance) (scens : Scenarios)
    (settings : InitSettings) (events : List Event) :
    history_invariant scens (run cfg scens settings events) := by
  unfold run
  have h : ∀ (l : List Event) (s : GameState), history_invariant scens s →
      history_invariant scens (l.foldl (fun s e => stepQ cfg scens settings s e) s) := by
    intro l
    induction l with
    | nil => intro s hs; simpa using hs
    | cons e l ih =>
      intro s hs
      exact ih _ (history_invariant_step cfg scens settings s e hs)
  exact h events _ (history_invariant_init scens settings)

/-- C6: in every reachable state whose phase is the story screen, the
crisis history holds exactly current_crisis_index + 1 snapshots: it is
seeded once at game start, grows by one exactly at the report
transition that also increments the index, and is appended nowhere
else. -/
theorem history_length_at_story_entry (cfg : Balance) (scens : Scenarios)
    (settings : InitSettings) (events : List Event)
    (h : (run cfg scens settings events).screen = .story) :
    (run cfg scens settings events).crisis_history.length =
      (run cfg scens settings events).current_crisis_index + 1 := by
  exact (history_invariant_run cfg scens settings events).2
    (by rw [h]; simp) (by rw [h]; simp)

/-- Witness for C6: one concrete start interaction reaches the story
screen with one history snapshot and index zero. -/
theorem history_length_at_story_entry_witness :
    (run fix_cfg fix_scens fix_settings [.startGame ["s1"]]).screen = Screen.story ∧
    (run fix_cfg fix_scens fix_settings [.startGame ["s1"]]).crisis_history.length =
      (run fix_cfg fix_scens fix_settings [.startGame ["s1"]]).current_crisis_index + 1 := by
  have hscreen : (run fix_cfg fix_scens fix_settings [.startGame ["s1"]]).screen =
      Screen.story := by
    norm_num +decide [run, stepQ, initialize_game_state, start_game_handler,
      sample_crisis_sequence, fix_scens, fix_settings, fix_metrics, fix_scenario, fix_card]
  exact ⟨hscreen, history_length_at_story_entry fix_cfg fix_scens fix_settings _ hscreen⟩

/-- C8 (code bug): within one crisis, advancing normally from the
immediate screen to the report screen applies the delayed-effects pass
twice. After the arrival rerun on the delayed screen the pending
security is 84 (one +10 bonus on 74); the single advancing click
re-renders the delayed screen, lifting it to 94 before the report
commits it — the bonus keyed on action C is applied once per rerun, not
once per crisis. -/
theorem delayed_effects_double_application :
    (run fix_cfg fix_scens fix_settings c8_events_once).results.map MDict.security =
      some 84 ∧
    (run fix_cfg fix_scens fix_settings c8_events_twice).results.map MDict.security =
      some 94 ∧
    (run fix_cfg fix_scens fix_settings c8_events_twice).screen = Screen.report ∧
    (run fix_cfg fix_scens fix_settings c8_events_twice).metrics.security = 94 := by
  refine ⟨?_, ?_, ?_, ?_⟩ <;>
    norm_num +decide [run, stepQ, initialize_game_state, start_game_handler,
      sample_crisis_sequence, select_action_handler, apply_decision_handler,
      lookup_scenario, affordable_actions, calculate_effects, render, delayed_pass,
      add_news, pymin, pymax, fix_cfg, fix_scens, fix_scenario, fix_card, fix_settings,
      fix_metrics, c8_events_once, c8_events_twice]

/-- C9 counterexample: ending the game early from the immediate screen
moves to game_end, but the final snapshot used for scoring is the
pending results dict (security 74), not the committed metrics
(security 50) as the claim requires. -/
theorem end_early_counterexample :
    (run fix_cfg fix_scens fix_settings c9_events).screen = Screen.game_end ∧
    (run fix_cfg fix_scens fix_settings c9_events).results.map MDict.security = some 74 ∧
    (run fix_cfg fix_scens fix_settings c9_events).metrics.security = 50 ∧
    (run fix_cfg fix_scens fix_settings c9_events).results ≠
      some (run fix_cfg fix_scens fix_settings c9_events).metrics := by
  refine ⟨?_, ?_, ?_, ?_⟩ <;>
    norm_num +decide [run, stepQ, initialize_game_state, start_game_handler,
      sample_crisis_sequence, select_action_handler, apply_decision_handler,
      end_game_early_handler, lookup_scenario, affordable_actions, calculate_effects,
      add_news, pymin, pymax, fix_cfg, fix_scens, fix_scenario, fix_card, fix_settings,
      fix_metrics, c9_events]

/-- C9 amended: from every phase other than start_game and game_end the
early-end transition is available and reaches game_end without touching
the committed metrics; the metrics are captured as the final snapshot
only when no results have been computed yet, otherwise the most recent
results dict (which on the immediate and delayed screens may differ
from the committed metrics) is kept as the final snapshot. -/
theorem end_early_amended (cfg : Balance) (scens : Scenarios) (settings : InitSettings)
    (s : GameState) (h1 : s.screen ≠ .start_game) (h2 : s.screen ≠ .game_end) :
    (stepQ cfg scens settings s .endEarly).screen = .game_end ∧
    (stepQ cfg scens settings s .endEarly).metrics = s.metrics ∧
    (s.results = none → (stepQ cfg scens settings s .endEarly).results = some s.metrics) ∧
    (∀ r, s.results = some r → (stepQ cfg scens settings s .endEarly).results = some r) := by
  simp only [stepQ]
  rw [if_neg (by simp [h1, h2])]
  unfold end_game_early_handler
  refine ⟨rfl, rfl, ?_, ?_⟩
  · intro hres
    simp [hres]
  · intro r hres
    simp [hres]

/-- Witness for the amended C9 at a concrete story-screen state with no
pending results. -/
theorem end_early_amended_witness :
    c9_wit_state.screen ≠ Screen.start_game ∧ c9_wit_state.screen ≠ Screen.game_end ∧
    (stepQ fix_cfg fix_scens fix_settings c9_wit_state .endEarly).screen =
      Screen.game_end ∧
    (stepQ fix_cfg fix_scens fix_settings c9_wit_state .endEarly).results =
      some c9_wit_state.metrics := by
  have h := end_early_amended fix_cfg fix_scens fix_settings c9_wit_state
    (by decide) (by decide)
  exact ⟨by decide, by decide, h.1, h.2.2.1 rfl⟩

/-- Witness for C4 at the fixture metrics with the positively-priced
fixture card and empty resources. -/
theorem skip_turn_and_resource_gate_witness :
    (calculate_skip_turn_effects fix_metrics 100 50 []).1.security = 25 ∧
    (calculate_skip_turn_effects fix_metrics 100 50 []).2 = [skip_headline] ∧
    affordable_actions [fix_card] 0 0 = [] := by
  have h := skip_turn_and_resource_gate fix_metrics 100 50 [] [fix_card]
    (by intro c hc; simp only [List.mem_singleton] at hc; subst hc; norm_num [fix_card])
  refine ⟨?_, ?_, h.2.2.2.2.2.2.2.2.2⟩
  · rw [h.1]
    norm_num [fix_metrics, min_def, max_def]
  · rw [h.2.2.2.2.2.2.2.2.1]
    rfl

end CIOGame
